import Mathlib

/-!
Verification of the recipe-app-api backend specification.

The repository ships its test suite and the recipe serializers under `src/`;
the model layer (`core/models.py`), the view layer (`recipe/views.py`,
`user/views.py`) and the user serializers are exercised by those tests but are
not part of the sources.  Definitions for those missing parts are therefore
modelled from the specification (`spec.md`), each marked
`Modelled from the spec:`; the data model follows spec section 3 and the
behaviour follows spec sections 4 and 7.

The embedding is a straightforward relational one: the database is four lists
of records, each request handler is a pure function from a database (plus the
authenticated caller's id and the request payload) to a new database and an
HTTP status code.
-/

namespace RecipeApp

/-- Model of the framework's password hasher: an injective tagging of the raw
password.  Only the properties `check_password (p, make_password p) = true`
and that distinct passwords hash differently are used. -/
def make_password (p : String) : String := "pbkdf2_sha256$" ++ p

/-- Model of `User.check_password`: compare the stored hash against the hash
of the candidate password. -/
def check_password (raw stored : String) : Bool := stored == make_password raw

/-- A user row: spec section 3, entity `User`. The `password` field stores the
hash, never the raw password. -/
structure User where
  id : Nat
  email : String
  name : String
  password : String
  is_staff : Bool
  is_superuser : Bool
deriving DecidableEq

/-- A tag row: spec section 3, entity `Tag`, owned by exactly one user. -/
structure Tag where
  id : Nat
  user_id : Nat
  name : String
deriving DecidableEq

/-- An ingredient row: spec section 3, entity `Ingredient`. -/
structure Ingredient where
  id : Nat
  user_id : Nat
  name : String
deriving DecidableEq

/-- A recipe row: spec section 3, entity `Recipe`.  The many-to-many links to
tags and ingredients are lists of ids; `image` is the optional stored file
path. -/
structure Recipe where
  id : Nat
  user_id : Nat
  title : String
  time_minutes : Nat
  price : ℚ
  link : String
  tags : List Nat
  ingredients : List Nat
  image : Option String
deriving DecidableEq

/-- The relational store: one list of rows per entity. -/
structure DB where
  users : List User
  tags : List Tag
  ingredients : List Ingredient
  recipes : List Recipe
deriving DecidableEq

/-- The empty database. -/
def DB.empty : DB := ⟨[], [], [], []⟩

/-- Modelled from the spec: the user manager's email normalization
(spec 4.1 "normalizes email (lowercases domain+local part as stored)"). -/
def normalize_email (e : String) : String := e.toLower

/-- Modelled from the spec: `create_user(email, password, **extra)` of the
user manager (`core/models.py`, not under `src/`).  Spec 4.1: fails with a
validation error when email is empty/None; otherwise normalizes email, hashes
the password and persists the new user. -/
def create_user (db : DB) (email : Option String) (password : String)
    (name : String := "") : Except String (DB × User) :=
  match email with
  | none => .error "Users must have an email address"
  | some e =>
    if e = "" then .error "Users must have an email address"
    else
      let u : User :=
        { id := db.users.length + 1
          email := normalize_email e
          name := name
          password := make_password password
          is_staff := false
          is_superuser := false }
      .ok ({ db with users := db.users ++ [u] }, u)

/-- The database state after a `create_user` call: unchanged when the call
fails. -/
def create_user_db (db : DB) (email : Option String) (password : String) : DB :=
  match create_user db email password with
  | .ok (db', _) => db'
  | .error _ => db

/-- Modelled from the spec: the ownership scoping of the tag list endpoint
(spec 4.2: every list operation "implicitly restricts the working set to rows
whose owner equals the authenticated caller"). -/
def tags_for (db : DB) (uid : Nat) : List Tag :=
  db.tags.filter (fun t => t.user_id == uid)

/-- Modelled from the spec: the ownership scoping of the ingredient list
endpoint (spec 4.2). -/
def ingredients_for (db : DB) (uid : Nat) : List Ingredient :=
  db.ingredients.filter (fun i => i.user_id == uid)

/-- Modelled from the spec: the ownership scoping of the recipe list endpoint
(spec 4.2). -/
def recipes_for (db : DB) (uid : Nat) : List Recipe :=
  db.recipes.filter (fun r => r.user_id == uid)

/-- Modelled from the spec: recipe detail lookup (spec 4.2: detail operations
work on the owner-scoped queryset; "cross-user access attempts return ...
not-found (detail)"). -/
def recipe_detail (db : DB) (uid rid : Nat) : Option Recipe :=
  (recipes_for db uid).find? (fun r => r.id == rid)

/-- Request payload for creating or fully updating a recipe.  `tags` and
`ingredients` are `none` when the field is omitted from the request. -/
structure RecipePayload where
  title : String
  time_minutes : Nat
  price : ℚ
  link : String
  tags : Option (List Nat)
  ingredients : Option (List Nat)
deriving DecidableEq

/-- Modelled from the spec: prices are stored as decimals with two decimal
places (spec section 3: "price rounded to 2 decimal places"). -/
def round2 (q : ℚ) : ℚ := (round (q * 100) : ℤ) / 100

/-- Modelled from the spec: full update (PUT) of a recipe (spec 3 lifecycle:
full update "replaces the tag/ingredient association set wholesale"; an
omitted tags field yields an empty set; spec 4.2: the target must be owned by
the caller, otherwise not-found).  Returns the new database and the HTTP
status. -/
def recipe_put (db : DB) (uid rid : Nat) (p : RecipePayload) : DB × Nat :=
  match recipe_detail db uid rid with
  | none => (db, 404)
  | some _ =>
    ({ db with
        recipes := db.recipes.map (fun r =>
          if r.id == rid && r.user_id == uid then
            { r with
                title := p.title
                time_minutes := p.time_minutes
                price := round2 p.price
                link := p.link
                tags := p.tags.getD []
                ingredients := p.ingredients.getD [] }
          else r) }, 200)

/-- Modelled from the spec: deletion of a recipe through the owner-scoped
queryset (spec 4.2: delete operations are restricted to rows owned by the
caller; cross-user attempts are not-found). -/
def recipe_delete (db : DB) (uid rid : Nat) : DB × Nat :=
  match recipe_detail db uid rid with
  | none => (db, 404)
  | some _ =>
    ({ db with
        recipes := db.recipes.filter (fun r =>
          !(r.id == rid && r.user_id == uid)) }, 204)

/-- Modelled from the spec: creation of a recipe by an authenticated caller
(spec 3: ownership fixed at creation; price stored at two decimal places). -/
def recipe_create (db : DB) (uid : Nat) (p : RecipePayload) : DB × Recipe :=
  let r : Recipe :=
    { id := db.recipes.length + 1
      user_id := uid
      title := p.title
      time_minutes := p.time_minutes
      price := round2 p.price
      link := p.link
      tags := p.tags.getD []
      ingredients := p.ingredients.getD []
      image := none }
  ({ db with recipes := db.recipes ++ [r] }, r)

/-- Modelled from the spec: the tag list endpoint with `assigned_only=1`
(spec 4.3: "restrict results to records referenced by at least one of the
caller's recipes, de-duplicated").  The relational join produces one row per
(recipe, tag) reference; `dedup` models the `distinct` de-duplication. -/
def tags_assigned (db : DB) (uid : Nat) : List Tag :=
  ((recipes_for db uid).flatMap (fun r =>
    (tags_for db uid).filter (fun t => r.tags.contains t.id))).dedup

/-- Modelled from the spec: the ingredient list endpoint with
`assigned_only=1` (spec 4.3), as for `tags_assigned`. -/
def ingredients_assigned (db : DB) (uid : Nat) : List Ingredient :=
  ((recipes_for db uid).flatMap (fun r =>
    (ingredients_for db uid).filter (fun i => r.ingredients.contains i.id))).dedup

/-- Modelled from the spec: the tag/ingredient list endpoints with the
optional `assigned_only` query flag (spec 4.3): without the flag the plain
owner-scoped list, with it the assigned-only list. -/
def tag_list (db : DB) (uid : Nat) (assigned_only : Bool) : List Tag :=
  if assigned_only then tags_assigned db uid else tags_for db uid

/-- Modelled from the spec: ingredient list endpoint with the optional
`assigned_only` flag (spec 4.3). -/
def ingredient_list (db : DB) (uid : Nat) (assigned_only : Bool) :
    List Ingredient :=
  if assigned_only then ingredients_assigned db uid else ingredients_for db uid

/-- Modelled from the spec: parsing of a comma-separated id list query
parameter (spec 4.3: "comma-separated `tags`/`ingredients` id lists").
Surrounding whitespace around each id is tolerated, as in the tests' payload
`"1, 2"`. -/
def params_to_ints (s : String) : List Nat :=
  (s.splitOn ",").filterMap (fun part => part.trim.toNat?)

/-- Modelled from the spec: the recipe list endpoint with optional `tags`
and `ingredients` query parameters (spec 4.3: "restrict to recipes
referencing at least one id from each given set (logical OR within a filter
dimension)"), on top of the owner scoping of spec 4.2. -/
def recipe_list (db : DB) (uid : Nat) (tags ingredients : Option String) :
    List Recipe :=
  let qs := recipes_for db uid
  let qs := match tags with
    | none => qs
    | some s => qs.filter (fun r =>
        (params_to_ints s).any (fun tid => r.tags.contains tid))
  match ingredients with
  | none => qs
  | some s => qs.filter (fun r =>
      (params_to_ints s).any (fun iid => r.ingredients.contains iid))

/-- Modelled from the spec: the credential check behind the token endpoint
(spec 4.5: a token is issued "given valid email+password"): look the user up
by email, then verify the password against the stored hash. -/
def authenticate (db : DB) (email password : String) : Option User :=
  match db.users.find? (fun u => u.email == email) with
  | none => none
  | some u => if check_password password u.password then some u else none

/-- The wire response of the token endpoint: an HTTP status and, on success,
the opaque token. -/
structure TokenResponse where
  status : Nat
  token : Option String
deriving DecidableEq

/-- Model of the opaque token issued for a user. -/
def make_token (u : User) : String := "token-" ++ toString u.id

/-- Modelled from the spec: the token endpoint `POST /user/token` (spec 4.5:
issues a token for valid credentials and "rejects with a generic
invalid-credentials error (never distinguishing \"no such user\" from
\"wrong password\")"; spec 7: validation failures are HTTP 400). -/
def create_token (db : DB) (email password : String) : TokenResponse :=
  match authenticate db email password with
  | some u => { status := 200, token := some (make_token u) }
  | none => { status := 400, token := none }

/-- An uploaded file as the image endpoint sees it: its client-side name and
whether the payload actually parses as an image (the image decoding itself
is outside the embedding). -/
structure UploadFile where
  name : String
  is_image : Bool
deriving DecidableEq

/-- Modelled from the spec: `models.recipe_image_file_path` (exercised by
`test_recipe_filename_uuid`): the stored path is
`uploads/recipe/<uuid>.<ext>` with the extension taken from the uploaded
file name and a freshly generated identifier. -/
def recipe_image_file_path (uuid : String) (filename : String) : String :=
  let ext := (filename.splitOn ".").getLastD ""
  "uploads/recipe/" ++ uuid ++ "." ++ ext

/-- Modelled from the spec: the recipe image upload endpoint (spec 4.4:
"rejects non-image payloads with a validation error; on success stores the
file at a generated unique path"), on the owner-scoped queryset of
spec 4.2. -/
def upload_image (db : DB) (uid rid : Nat) (file : UploadFile)
    (uuid : String) : DB × Nat :=
  match recipe_detail db uid rid with
  | none => (db, 404)
  | some _ =>
    if file.is_image then
      ({ db with
          recipes := db.recipes.map (fun r =>
            if r.id == rid && r.user_id == uid then
              { r with image := some (recipe_image_file_path uuid file.name) }
            else r) }, 200)
    else (db, 400)

/-- The registration request payload of `POST /user/create`. -/
structure UserPayload where
  name : String
  email : String
  password : String
deriving DecidableEq

/-- Modelled from the spec: the registration endpoint `POST /user/create`
(spec 6 and 7: validation failures return HTTP 400, duplicate user is a 400;
the 5-character password minimum is fixed by `test_password_is_too_short`,
where the 4-character password "pass" is rejected and no user persists). -/
def user_create (db : DB) (p : UserPayload) : DB × Nat :=
  if p.password.length < 5 then (db, 400)
  else if db.users.any (fun u => u.email == normalize_email p.email) then
    (db, 400)
  else
    match create_user db (some p.email) p.password p.name with
    | .ok (db', _) => (db', 201)
    | .error _ => (db, 400)

/-- The stored row of the demo caller (user 1). -/
def demoUserOne : User :=
  ⟨1, "test@test.com", "", make_password "password123", false, false⟩

/-- A concrete two-user database used to instantiate theorems: user 1 is the
caller, user 2 owns tag 20, ingredient 30 and recipe 10. -/
def demoDB : DB :=
  { users :=
      [ demoUserOne
      , ⟨2, "notme@user.com", "", make_password "password123", false, false⟩ ]
    tags := [⟨20, 2, "Desert"⟩, ⟨21, 1, "Vegan"⟩]
    ingredients := [⟨30, 2, "Banana"⟩, ⟨31, 1, "Kale"⟩]
    recipes :=
      [ ⟨10, 2, "Sample recipe", 10, 599/100, "", [20], [30], none⟩
      , ⟨11, 1, "My recipe", 10, 599/100, "", [21], [31], none⟩ ] }

/-- A concrete recipe payload used to instantiate theorems; its `tags` and
`ingredients` fields are omitted. -/
def demoPayload : RecipePayload :=
  ⟨"Yee derp", 19, 6999/100, "", none, none⟩

/-- C4: for every non-empty email and password, `create_user` succeeds,
stores the email fully lowercased (local part and domain part alike, since
the whole string is lowercased), and stores a hash against which the original
password checks successfully. -/
theorem create_user_normalizes_and_hashes (db : DB) (e p : String)
    (h : e ≠ "") :
    ∃ db' u, create_user db (some e) p = .ok (db', u) ∧
      u.email = e.toLower ∧ check_password p u.password = true := by
  simp only [create_user, if_neg h]
  exact ⟨_, _, rfl, rfl, by simp [check_password]⟩

/-- C4 witness: a concrete mixed-case email is stored lowercased and the
original password verifies. -/
theorem create_user_normalizes_and_hashes_witness :
    ("Fake@EmAiL.CoM" : String) ≠ "" ∧
    ∃ db' u, create_user DB.empty (some "Fake@EmAiL.CoM") "password123"
        = .ok (db', u) ∧
      u.email = "Fake@EmAiL.CoM".toLower ∧
      check_password "password123" u.password = true :=
  ⟨by decide,
   create_user_normalizes_and_hashes DB.empty "Fake@EmAiL.CoM" "password123"
     (by decide)⟩

/-- C5: for every database, password and extras, calling `create_user` with a
`None` email or an empty email fails with a validation error, and the
database (hence the set of users) is unchanged: no user is created. -/
theorem create_user_invalid_email_fails (db : DB) (p : String) :
    create_user db none p = .error "Users must have an email address" ∧
    create_user db (some "") p = .error "Users must have an email address" ∧
    create_user_db db none p = db ∧
    create_user_db db (some "") p = db := by
  refine ⟨rfl, ?_, rfl, ?_⟩ <;> simp [create_user, create_user_db]

/-- C1: every list endpoint returns exactly the caller's own rows; every
detail result is one of the caller's own rows; and when the requested recipe
id is not one of the caller's rows (e.g. it belongs to another user), detail
is not-found and update/delete answer 404 leaving the database unchanged —
another user's data is never returned or touched. -/
theorem ownership_scoped_access (db : DB) (uid rid : Nat) (p : RecipePayload)
    (hcross : ∀ r ∈ db.recipes, r.id = rid → r.user_id ≠ uid) :
    (∀ t, t ∈ tags_for db uid ↔ t ∈ db.tags ∧ t.user_id = uid) ∧
    (∀ i, i ∈ ingredients_for db uid ↔ i ∈ db.ingredients ∧ i.user_id = uid) ∧
    (∀ r, r ∈ recipes_for db uid ↔ r ∈ db.recipes ∧ r.user_id = uid) ∧
    (∀ rid' r, recipe_detail db uid rid' = some r →
      r ∈ db.recipes ∧ r.user_id = uid) ∧
    recipe_detail db uid rid = none ∧
    recipe_put db uid rid p = (db, 404) ∧
    recipe_delete db uid rid = (db, 404) := by
  have hdet : ∀ rid' r, recipe_detail db uid rid' = some r →
      r ∈ db.recipes ∧ r.user_id = uid := by
    intro rid' r hr
    have hmem := List.mem_of_find?_eq_some hr
    simp only [recipes_for, List.mem_filter, beq_iff_eq] at hmem
    exact hmem
  have hnone : recipe_detail db uid rid = none := by
    rw [recipe_detail, List.find?_eq_none]
    intro r hr
    simp only [recipes_for, List.mem_filter, beq_iff_eq] at hr
    simp only [beq_iff_eq]
    exact fun hid => hcross r hr.1 hid hr.2
  refine ⟨?_, ?_, ?_, hdet, hnone, ?_, ?_⟩
  · intro t; simp [tags_for, List.mem_filter]
  · intro i; simp [ingredients_for, List.mem_filter]
  · intro r; simp [recipes_for, List.mem_filter]
  · rw [recipe_put, hnone]
  · rw [recipe_delete, hnone]

/-- C1 witness: in the concrete two-user database, caller 1 asking for
recipe 10 (owned by user 2) gets not-found on detail and 404 with an
unchanged database on update and delete, and the list endpoints return
exactly the caller's rows. -/
theorem ownership_scoped_access_witness :
    (∀ r ∈ demoDB.recipes, r.id = 10 → r.user_id ≠ 1) ∧
    ((∀ t, t ∈ tags_for demoDB 1 ↔ t ∈ demoDB.tags ∧ t.user_id = 1) ∧
     (∀ i, i ∈ ingredients_for demoDB 1 ↔
        i ∈ demoDB.ingredients ∧ i.user_id = 1) ∧
     (∀ r, r ∈ recipes_for demoDB 1 ↔ r ∈ demoDB.recipes ∧ r.user_id = 1) ∧
     (∀ rid' r, recipe_detail demoDB 1 rid' = some r →
        r ∈ demoDB.recipes ∧ r.user_id = 1) ∧
     recipe_detail demoDB 1 10 = none ∧
     recipe_put demoDB 1 10 demoPayload = (demoDB, 404) ∧
     recipe_delete demoDB 1 10 = (demoDB, 404)) :=
  ⟨by decide, ownership_scoped_access demoDB 1 10 demoPayload (by decide)⟩

/-- C2: with `assigned_only=1`, the tag and ingredient list endpoints return
exactly those of the caller's tags/ingredients that are referenced by at
least one of the caller's own recipes, and the returned list has no
duplicates, so each item appears at most once even when referenced by
several recipes. -/
theorem assigned_only_exact_and_unique (db : DB) (uid : Nat) :
    (∀ t, t ∈ tag_list db uid true ↔
      t ∈ db.tags ∧ t.user_id = uid ∧
        ∃ r ∈ db.recipes, r.user_id = uid ∧ t.id ∈ r.tags) ∧
    (tag_list db uid true).Nodup ∧
    (∀ i, i ∈ ingredient_list db uid true ↔
      i ∈ db.ingredients ∧ i.user_id = uid ∧
        ∃ r ∈ db.recipes, r.user_id = uid ∧ i.id ∈ r.ingredients) ∧
    (ingredient_list db uid true).Nodup := by
  refine ⟨?_, List.nodup_dedup _, ?_, List.nodup_dedup _⟩
  · intro t
    simp only [tag_list, if_pos, tags_assigned, List.mem_dedup,
      List.mem_flatMap, recipes_for, tags_for, List.mem_filter, beq_iff_eq,
      List.contains, List.elem_eq_mem, decide_eq_true_eq]
    tauto
  · intro i
    simp only [ingredient_list, if_pos, ingredients_assigned, List.mem_dedup,
      List.mem_flatMap, recipes_for, ingredients_for, List.mem_filter,
      beq_iff_eq, List.contains, List.elem_eq_mem, decide_eq_true_eq]
    tauto

/-- C3: the recipe list endpoint given comma-separated `tags` and/or
`ingredients` id lists returns exactly the caller's recipes referencing at
least one id from each given set (logical OR among the ids of one filter
dimension, conjunction across dimensions); a recipe referencing none of the
given ids is excluded, and with no filter the plain owner-scoped list is
returned. -/
theorem recipe_list_filtering (db : DB) (uid : Nat) (ts is' : String) :
    (∀ r, r ∈ recipe_list db uid (some ts) (some is') ↔
      r ∈ db.recipes ∧ r.user_id = uid ∧
        (∃ tid ∈ params_to_ints ts, tid ∈ r.tags) ∧
        (∃ iid ∈ params_to_ints is', iid ∈ r.ingredients)) ∧
    (∀ r, r ∈ recipe_list db uid (some ts) none ↔
      r ∈ db.recipes ∧ r.user_id = uid ∧
        ∃ tid ∈ params_to_ints ts, tid ∈ r.tags) ∧
    (∀ r, r ∈ recipe_list db uid none (some is') ↔
      r ∈ db.recipes ∧ r.user_id = uid ∧
        ∃ iid ∈ params_to_ints is', iid ∈ r.ingredients) ∧
    (∀ r, r ∈ recipe_list db uid none none ↔
      r ∈ db.recipes ∧ r.user_id = uid) := by
  refine ⟨?_, ?_, ?_, ?_⟩ <;>
  · intro r
    simp only [recipe_list, recipes_for, List.mem_filter, beq_iff_eq,
      List.any_eq_true, List.contains, List.elem_eq_mem, decide_eq_true_eq]
    try tauto

/-- Helper: when a full update succeeds (status 200), every row of the
resulting database that matches the requested id and the caller is the
payload's data: title, minutes, rounded price, link, and the tag and
ingredient sets (empty when the corresponding payload field is omitted). -/
theorem recipe_put_row_update (db : DB) (uid rid : Nat) (p : RecipePayload)
    (h200 : (recipe_put db uid rid p).2 = 200) :
    ∀ r' ∈ (recipe_put db uid rid p).1.recipes,
      r'.id = rid → r'.user_id = uid →
      r'.title = p.title ∧ r'.time_minutes = p.time_minutes ∧
      r'.price = round2 p.price ∧ r'.link = p.link ∧
      r'.tags = p.tags.getD [] ∧ r'.ingredients = p.ingredients.getD [] := by
  intro r' hmem hid huid
  rcases hdet : recipe_detail db uid rid with _ | r0
  · simp only [recipe_put, hdet] at h200
    exact absurd h200 (by decide)
  · simp only [recipe_put, hdet, List.mem_map] at hmem
    obtain ⟨r, hr, hfr⟩ := hmem
    by_cases hc : (r.id == rid && r.user_id == uid) = true
    · rw [if_pos hc] at hfr
      subst hfr
      exact ⟨rfl, rfl, rfl, rfl, rfl, rfl⟩
    · rw [if_neg hc] at hfr
      subst hfr
      exact absurd (by simp [hid, huid]) hc

/-- C6: a successful full update (PUT) of one of the caller's recipes
replaces the recipe's entire tag association set with the set given in the
payload; when the tags field is omitted (`none`) the recipe has zero tags
afterwards, regardless of the tags it had before (no hypothesis constrains
them). -/
theorem put_replaces_tag_set (db : DB) (uid rid : Nat) (p : RecipePayload)
    (h200 : (recipe_put db uid rid p).2 = 200) :
    ∀ r' ∈ (recipe_put db uid rid p).1.recipes,
      r'.id = rid → r'.user_id = uid →
      r'.tags = p.tags.getD [] ∧ (p.tags = none → r'.tags = []) := by
  intro r' hmem hid huid
  obtain ⟨-, -, -, -, htags, -⟩ :=
    recipe_put_row_update db uid rid p h200 r' hmem hid huid
  exact ⟨htags, fun hnone => by rw [htags, hnone]; rfl⟩

/-- C6 witness: updating the caller's recipe 11 (which had one tag) with a
payload whose tags field is omitted succeeds and leaves the stored recipe
with zero tags. -/
theorem put_replaces_tag_set_witness :
    (recipe_put demoDB 1 11 demoPayload).2 = 200 ∧
    ∀ r' ∈ (recipe_put demoDB 1 11 demoPayload).1.recipes,
      r'.id = 11 → r'.user_id = 1 →
      r'.tags = demoPayload.tags.getD [] ∧
        (demoPayload.tags = none → r'.tags = []) :=
  ⟨by decide, put_replaces_tag_set demoDB 1 11 demoPayload (by decide)⟩

/-- C7: the price stored by recipe creation and by a successful full update
is the submitted price rounded to two decimal places: it equals
`round2 p.price`, every `round2` result has exactly two decimal places
(denominator of `q * 100` is 1), and a price already at two decimal places
(such as 69.99) is stored unchanged. -/
theorem price_stored_two_decimals (db : DB) (uid rid : Nat)
    (p : RecipePayload) :
    (recipe_create db uid p).2.price = round2 p.price ∧
    (∀ r' ∈ (recipe_put db uid rid p).1.recipes,
      (recipe_put db uid rid p).2 = 200 → r'.id = rid → r'.user_id = uid →
      r'.price = round2 p.price) ∧
    (∀ q : ℚ, ((round2 q) * 100).den = 1) ∧
    (∀ q : ℚ, (q * 100).den = 1 → round2 q = q) := by
  refine ⟨rfl, ?_, ?_, ?_⟩
  · intro r' hmem h200 hid huid
    obtain ⟨-, -, hprice, -, -, -⟩ :=
      recipe_put_row_update db uid rid p h200 r' hmem hid huid
    exact hprice
  · intro q
    have h : (round2 q) * 100 = ((round (q * 100) : ℤ) : ℚ) :=
      div_mul_cancel₀ _ (by norm_num)
    rw [h, Rat.den_intCast]
  · intro q h
    have h1 : ((q * 100).num : ℚ) = q * 100 := (Rat.den_eq_one_iff _).mp h
    rw [round2, ← h1, round_intCast, h1]
    exact mul_div_cancel_right₀ q (by norm_num)

/-- C7 witness: 69.99 already has two decimal places, and rounding stores it
unchanged as 69.99. -/
theorem price_stored_two_decimals_witness :
    (((6999 : ℚ) / 100) * 100).den = 1 ∧
    round2 ((6999 : ℚ) / 100) = (6999 : ℚ) / 100 := by
  have h100 : ((6999 : ℚ) / 100) * 100 = (6999 : ℚ) :=
    div_mul_cancel₀ _ (by simp)
  have hden : (((6999 : ℚ) / 100) * 100).den = 1 := by rw [h100]; simp
  exact ⟨hden,
    (price_stored_two_decimals DB.empty 1 1 demoPayload).2.2.2 _ hden⟩

/-- C8: the token endpoint answers both kinds of invalid credentials — an
email matching no user, and an existing email with a wrong password — with
the identical generic response: HTTP 400 and no token, so the two cases are
indistinguishable to the caller. -/
theorem token_invalid_credentials_uniform (db : DB) (email pw : String) :
    (db.users.find? (fun u => u.email == email) = none →
      create_token db email pw = ⟨400, none⟩) ∧
    (∀ u, db.users.find? (fun u' => u'.email == email) = some u →
      check_password pw u.password = false →
      create_token db email pw = ⟨400, none⟩) := by
  constructor
  · intro h
    simp [create_token, authenticate, h]
  · intro u hu hp
    simp [create_token, authenticate, hu, hp]

/-- C8 witness: in the demo database, a request for an unknown email and a
request for user 1's email with a wrong password both get exactly
status 400 with no token — the same response. -/
theorem token_invalid_credentials_uniform_witness :
    demoDB.users.find? (fun u => u.email == "missing@test.com") = none ∧
    create_token demoDB "missing@test.com" "password123" = ⟨400, none⟩ ∧
    demoDB.users.find? (fun u => u.email == "test@test.com")
      = some demoUserOne ∧
    check_password "badPassword123" demoUserOne.password = false ∧
    create_token demoDB "test@test.com" "badPassword123" = ⟨400, none⟩ ∧
    create_token demoDB "missing@test.com" "password123"
      = create_token demoDB "test@test.com" "badPassword123" := by
  have h1 := (token_invalid_credentials_uniform demoDB "missing@test.com"
    "password123").1 (by decide)
  have h2 := (token_invalid_credentials_uniform demoDB "test@test.com"
    "badPassword123").2 demoUserOne (by decide) (by decide)
  exact ⟨by decide, h1, by decide, by decide, h2, h1.trans h2.symm⟩

/-- C9: posting a non-image payload to the image upload endpoint of an
existing recipe owned by the caller returns HTTP 400 and leaves the whole
database — in particular the recipe's stored state and its image field —
unchanged. -/
theorem upload_non_image_rejected (db : DB) (uid rid : Nat)
    (file : UploadFile) (uuid : String)
    (hex : recipe_detail db uid rid ≠ none)
    (hbad : file.is_image = false) :
    upload_image db uid rid file uuid = (db, 400) := by
  rcases hdet : recipe_detail db uid rid with _ | r0
  · exact absurd hdet hex
  · simp [upload_image, hdet, hbad]

/-- C9 witness: recipe 11 exists and is owned by caller 1; uploading a
non-image file to it yields 400 and the unchanged demo database. -/
theorem upload_non_image_rejected_witness :
    recipe_detail demoDB 1 11 ≠ none ∧
    (⟨"notanimage.txt", false⟩ : UploadFile).is_image = false ∧
    upload_image demoDB 1 11 ⟨"notanimage.txt", false⟩ "uuid-1"
      = (demoDB, 400) :=
  ⟨by decide, rfl,
    upload_non_image_rejected demoDB 1 11 ⟨"notanimage.txt", false⟩ "uuid-1"
      (by decide) rfl⟩

/-- C10: a registration request whose password is shorter than the
5-character minimum is answered with HTTP 400 and the database is unchanged;
in particular, if no user with the requested (normalized) email existed
before, none exists afterwards — the failed request persists nothing. -/
theorem short_password_rejected (db : DB) (p : UserPayload)
    (hshort : p.password.length < 5) :
    user_create db p = (db, 400) ∧
    ((∀ u ∈ db.users, u.email ≠ normalize_email p.email) →
      ∀ u ∈ (user_create db p).1.users, u.email ≠ normalize_email p.email) := by
  have h : user_create db p = (db, 400) := by
    simp [user_create, if_pos hshort]
  refine ⟨h, fun hnone u hu => ?_⟩
  rw [h] at hu
  exact hnone u hu

/-- C10 witness: registering with the 4-character password "pass" in the
demo database returns 400, the database is unchanged, and no user with the
requested email exists afterwards. -/
theorem short_password_rejected_witness :
    ("pass".length < 5) ∧
    (user_create demoDB ⟨"testUser", "mail@mail.com", "pass"⟩
        = (demoDB, 400) ∧
      ((∀ u ∈ demoDB.users, u.email ≠ normalize_email "mail@mail.com") →
        ∀ u ∈ (user_create demoDB
            ⟨"testUser", "mail@mail.com", "pass"⟩).1.users,
          u.email ≠ normalize_email "mail@mail.com")) :=
  ⟨by decide,
    short_password_rejected demoDB ⟨"testUser", "mail@mail.com", "pass"⟩
      (by decide)⟩

end RecipeApp
